import Mathlib

/-!
Verification of a theme-preference widget: a provider that tracks a
light/dark/system preference, resolves it against the OS dark-mode query,
persists it under the storage key "theme", applies the resolved value to the
document root class list, and a dropdown picker control bound to the provider.
-/

/-- Theme modes selectable by the user: the TS union type
`light | dark | system`. -/
inductive Theme where
  | light
  | dark
  | system
  deriving DecidableEq

/-- Resolved theme actually applied to the DOM: the TS union `light | dark`. -/
inductive Resolved where
  | light
  | dark
  deriving DecidableEq

/-- String form of a Theme value, as written to localStorage. -/
def themeToString (t : Theme) : String :=
  match t with
  | Theme.light => "light"
  | Theme.dark => "dark"
  | Theme.system => "system"

/-- String form of a Resolved value, as used for the document root class. -/
def resolvedToString (r : Resolved) : String :=
  match r with
  | Resolved.light => "light"
  | Resolved.dark => "dark"

/-- Injection of a Resolved value back into the Theme union. -/
def resolvedToTheme (r : Resolved) : Theme :=
  match r with
  | Resolved.light => Theme.light
  | Resolved.dark => Theme.dark

/-- Cast of a validated stored string to a Theme (the `as Theme` cast in the
source, applied only under the validity guard). -/
def stringToTheme (s : String) : Theme :=
  if s = "light" then Theme.light
  else if s = "dark" then Theme.dark
  else Theme.system

/-- Browser localStorage, modelled as a partial map from keys to strings. -/
abbrev Storage := String → Option String

/-- Storage with no keys set. -/
def Storage.empty : Storage := fun _ => none

/-- Model of localStorage.setItem key value. -/
def Storage.setItem (s : Storage) (key value : String) : Storage :=
  fun k => if k = key then some value else s k

/-- Model of localStorage.getItem key. -/
def Storage.getItem (s : Storage) (key : String) : Option String := s key

/-- Provider state: the two useState cells (theme and resolvedTheme) together
with the persisted storage the provider reads and writes. -/
structure StoreState where
  theme : Theme
  resolved : Resolved
  storage : Storage

/-- Initial provider state from the useState defaults: theme starts as
system and resolvedTheme starts as light; storage holds whatever the
browser already has, unread at this point. -/
def initialStore (storage0 : Storage) : StoreState :=
  { theme := Theme.system, resolved := Resolved.light, storage := storage0 }

/-- Mount effect body restoring the theme from a saved string: the saved
value is adopted only when it is non-null, truthy, and one of the three
enum strings; otherwise the current theme is kept. -/
def restoreTheme (saved : Option String) (current : Theme) : Theme :=
  match saved with
  | none => current
  | some s =>
      if ¬ s = "" ∧ (s = "light" ∨ s = "dark" ∨ s = "system")
      then stringToTheme s
      else current

/-- Theme obtained by initializing from a persisted value, starting from the
default system. -/
def initTheme (saved : Option String) : Theme :=
  restoreTheme saved Theme.system

/-- Mount effect on the provider state: reads the key "theme" from storage
and restores the theme preference from it. -/
def restoreFromStorage (st : StoreState) : StoreState :=
  { st with theme := restoreTheme (st.storage.getItem "theme") st.theme }

/-- Resolution rule updateResolvedTheme: when the theme is system, the OS
dark-mode query result maps true to dark and false to light; otherwise the
theme (narrowed to light or dark) is used directly. -/
def updateResolvedTheme (theme : Theme) (osDark : Bool) : Resolved :=
  match theme with
  | Theme.system => if osDark then Resolved.dark else Resolved.light
  | Theme.light => Resolved.light
  | Theme.dark => Resolved.dark

/-- Resolution effect on the provider state: recomputes resolvedTheme from
the current theme and the OS dark-mode query. -/
def runResolutionEffect (st : StoreState) (osDark : Bool) : StoreState :=
  { st with resolved := updateResolvedTheme st.theme osDark }

/-- Handler registered on the OS appearance-change media query: re-runs
resolution only while the theme is system, and does nothing otherwise. -/
def mediaQueryHandler (st : StoreState) (osDark : Bool) : StoreState :=
  if st.theme = Theme.system then runResolutionEffect st osDark else st

/-- Model of classList.remove on the document root: every occurrence of each
listed token is removed. -/
def classListRemove (classes : List String) (toRemove : List String) : List String :=
  classes.filter (fun c => decide (c ∉ toRemove))

/-- Model of classList.add on the document root: the token is appended when
absent and the list is unchanged when it is already present. -/
def classListAdd (classes : List String) (c : String) : List String :=
  if c ∈ classes then classes else classes ++ [c]

/-- Apply effect: removes both markers light and dark from the root class
list, then adds the class of the resolved theme. -/
def applyThemeEffect (root : List String) (resolved : Resolved) : List String :=
  classListAdd (classListRemove root ["light", "dark"]) (resolvedToString resolved)

/-- Setter setTheme exposed through the context: updates the in-memory theme
state and synchronously persists the new value under the key "theme". -/
def setTheme (st : StoreState) (newTheme : Theme) : StoreState :=
  { st with
      theme := newTheme,
      storage := st.storage.setItem "theme" (themeToString newTheme) }

/-- Context value shape: current theme, the setter, and the resolved theme. -/
structure ThemeContextType where
  theme : Theme
  setTheme : Theme → StoreState
  resolvedTheme : Resolved

/-- Context value the provider supplies to its children. -/
def contextValue (st : StoreState) : ThemeContextType :=
  ThemeContextType.mk st.theme (fun t => setTheme st t) st.resolved

/-- Accessor useTheme: the context is undefined outside the provider scope,
in which case a fixed error is thrown; inside, the context value is
returned. -/
def useTheme (context : Option ThemeContextType) : Except String ThemeContextType :=
  match context with
  | none => Except.error "useTheme must be used within a ThemeProvider"
  | some c => Except.ok c

/-- Picker control state: the bound store plus the boolean open flag of the
dropdown list. -/
structure PickerState where
  store : StoreState
  isOpen : Bool

/-- Outside-click handler: when the dropdown ref is mounted and the event
target is not inside its subtree, the list is closed; otherwise nothing
happens. -/
def handleClickOutside (refCurrent : Bool) (targetInsideRef : Bool)
    (ps : PickerState) : PickerState :=
  if refCurrent && !targetInsideRef then { ps with isOpen := false } else ps

/-- Selection handler handleThemeChange of the part_001 picker: calls the
store setter with the new theme and closes the list. -/
def handleThemeChange (ps : PickerState) (newTheme : Theme) : PickerState :=
  { store := setTheme ps.store newTheme, isOpen := false }

/-- Icons used by the picker. -/
inductive Icon where
  | sun
  | moon
  | monitor
  deriving DecidableEq

/-- Option row of the ThemeToggle.tsx picker list. -/
structure ThemeOption where
  value : Theme
  label : String
  icon : Icon
  deriving DecidableEq

/-- The three option rows of the ThemeToggle.tsx picker. -/
def themeOptions : List ThemeOption :=
  [ ThemeOption.mk Theme.light "Light" Icon.sun,
    ThemeOption.mk Theme.dark "Dark" Icon.moon,
    ThemeOption.mk Theme.system "System" Icon.monitor ]

/-- Inline onClick of an option row in the ThemeToggle.tsx picker: calls the
store setter with the option value and closes the list. -/
def optionOnClick (ps : PickerState) (option : ThemeOption) : PickerState :=
  { store := setTheme ps.store option.value, isOpen := false }

/-- Button icon of the part_001 picker, getIcon: chosen by the raw theme
preference, with the monitor icon for system. -/
def getIcon (theme : Theme) : Icon :=
  match theme with
  | Theme.light => Icon.sun
  | Theme.dark => Icon.moon
  | Theme.system => Icon.monitor

/-- Button icon of the ThemeToggle.tsx picker: moon when the resolved theme
is dark, sun otherwise. -/
def currentIcon (resolvedTheme : Resolved) : Icon :=
  if resolvedTheme = Resolved.dark then Icon.moon else Icon.sun

/-- Modelled from the spec: the icon corresponding to a resolved (concrete
light or dark) value, used to compare the two picker implementations against
the specified rendering rule. -/
def specResolvedIcon (r : Resolved) : Icon :=
  match r with
  | Resolved.light => Icon.sun
  | Resolved.dark => Icon.moon

/-- Helper: a token listed for removal is absent after classListRemove. -/
theorem classListRemove_not_mem (classes toRemove : List String) (c : String)
    (h : c ∈ toRemove) : c ∉ classListRemove classes toRemove := by
  intro hmem
  have h2 := (List.mem_filter.mp hmem).2
  simp at h2
  exact h2 h

/-- Helper: the apply effect always appends the resolved class after the
removal pass, since the removal pass has deleted both markers. -/
theorem applyThemeEffect_eq (root : List String) (r : Resolved) :
    applyThemeEffect root r
      = classListRemove root ["light", "dark"] ++ [resolvedToString r] := by
  have h : resolvedToString r ∉ classListRemove root ["light", "dark"] := by
    apply classListRemove_not_mem
    cases r <;> simp [resolvedToString]
  rw [applyThemeEffect, classListAdd, if_neg h]

/-- Claim C1: for every theme t, resolution yields t itself when t is light
or dark, independent of the OS dark-mode query; when t is system it yields
dark exactly when the OS query returns true and light when it returns false;
the resolved value is never the value system. -/
theorem C1_resolution (t : Theme) (os : Bool) :
    updateResolvedTheme Theme.light os = Resolved.light ∧
    updateResolvedTheme Theme.dark os = Resolved.dark ∧
    updateResolvedTheme Theme.system os
      = (if os then Resolved.dark else Resolved.light) ∧
    resolvedToTheme (updateResolvedTheme t os) ≠ Theme.system := by
  cases t <;> cases os <;> simp [updateResolvedTheme, resolvedToTheme]

/-- Claim C2: initialization from storage yields the persisted theme when it
is one of the three valid enum strings, and yields the default system when
the persisted value is absent or any other string. -/
theorem C2_initFromStorage (s : String)
    (h1 : s ≠ "light") (h2 : s ≠ "dark") (h3 : s ≠ "system") :
    initTheme none = Theme.system ∧
    (∀ t : Theme, initTheme (some (themeToString t)) = t) ∧
    initTheme (some s) = Theme.system := by
  refine ⟨rfl, ?_, ?_⟩
  · intro t
    cases t <;> rfl
  · simp [initTheme, restoreTheme, h1, h2, h3]

/-- Witness for claim C2 at the concrete invalid stored string blue. -/
theorem C2_initFromStorage_witness :
    initTheme (some "blue") = Theme.system :=
  (C2_initFromStorage "blue" (by decide) (by decide) (by decide)).2.2

/-- Claim C3: after every apply step the document root class list holds
exactly one of the markers light and dark (their occurrence counts sum to
one), and that marker is the class of the current resolved theme. -/
theorem C3_exactlyOneMarker (root : List String) (r : Resolved) :
    (applyThemeEffect root r).count "light"
      + (applyThemeEffect root r).count "dark" = 1 ∧
    resolvedToString r ∈ applyThemeEffect root r := by
  have hl : "light" ∉ classListRemove root ["light", "dark"] :=
    classListRemove_not_mem _ _ _ (by simp)
  have hd : "dark" ∉ classListRemove root ["light", "dark"] :=
    classListRemove_not_mem _ _ _ (by simp)
  rw [applyThemeEffect_eq]
  constructor
  · rw [List.count_append, List.count_append,
      List.count_eq_zero_of_not_mem hl, List.count_eq_zero_of_not_mem hd]
    cases r <;> simp [resolvedToString]
  · simp

/-- Claim C4: an OS appearance-change notification leaves the theme and
storage unchanged always; when the theme is system it updates the resolved
theme to match the new OS preference, and when the theme is light or dark it
leaves the whole state unchanged. -/
theorem C4_osChangeHandler (st : StoreState) (os : Bool) :
    (mediaQueryHandler st os).theme = st.theme ∧
    (mediaQueryHandler st os).storage = st.storage ∧
    (st.theme = Theme.system →
      (mediaQueryHandler st os).resolved
        = (if os then Resolved.dark else Resolved.light)) ∧
    (st.theme ≠ Theme.system → mediaQueryHandler st os = st) := by
  rcases st with ⟨t, r, g⟩
  cases t <;>
    simp [mediaQueryHandler, runResolutionEffect, updateResolvedTheme]

/-- Witness for claim C4: in system mode an OS flip to dark updates the
resolved theme; in light mode the same notification changes nothing. -/
theorem C4_osChangeHandler_witness :
    (mediaQueryHandler ⟨Theme.system, Resolved.light, Storage.empty⟩ true).resolved
      = (if true then Resolved.dark else Resolved.light) ∧
    mediaQueryHandler ⟨Theme.light, Resolved.light, Storage.empty⟩ true
      = ⟨Theme.light, Resolved.light, Storage.empty⟩ :=
  ⟨(C4_osChangeHandler ⟨Theme.system, Resolved.light, Storage.empty⟩ true).2.2.1 rfl,
   (C4_osChangeHandler ⟨Theme.light, Resolved.light, Storage.empty⟩ true).2.2.2 (by decide)⟩

/-- Claim C5: calling the setter with any theme t updates the in-memory
theme to t and synchronously writes the string form of t under the storage
key "theme" in the same call, leaving the resolved theme untouched. -/
theorem C5_setThemePersists (st : StoreState) (t : Theme) :
    (setTheme st t).theme = t ∧
    (setTheme st t).storage.getItem "theme" = some (themeToString t) ∧
    (setTheme st t).resolved = st.resolved := by
  refine ⟨rfl, ?_, rfl⟩
  simp [setTheme, Storage.setItem, Storage.getItem]

/-- Claim C6: selecting any option of the picker list while it is open calls
the store setter with exactly that option value and closes the list, in both
picker variants. -/
theorem C6_selectOption (ps : PickerState) (option : ThemeOption)
    (hmem : option ∈ themeOptions) (hopen : ps.isOpen = true) :
    (optionOnClick ps option).store = setTheme ps.store option.value ∧
    (optionOnClick ps option).isOpen = false ∧
    handleThemeChange ps option.value = optionOnClick ps option :=
  ⟨rfl, rfl, rfl⟩

/-- Witness for claim C6 at the light option of an open picker. -/
theorem C6_selectOption_witness :
    (optionOnClick ⟨⟨Theme.system, Resolved.light, Storage.empty⟩, true⟩
        (ThemeOption.mk Theme.light "Light" Icon.sun)).store
      = setTheme ⟨Theme.system, Resolved.light, Storage.empty⟩ Theme.light ∧
    (optionOnClick ⟨⟨Theme.system, Resolved.light, Storage.empty⟩, true⟩
        (ThemeOption.mk Theme.light "Light" Icon.sun)).isOpen = false ∧
    handleThemeChange ⟨⟨Theme.system, Resolved.light, Storage.empty⟩, true⟩ Theme.light
      = optionOnClick ⟨⟨Theme.system, Resolved.light, Storage.empty⟩, true⟩
          (ThemeOption.mk Theme.light "Light" Icon.sun) :=
  C6_selectOption ⟨⟨Theme.system, Resolved.light, Storage.empty⟩, true⟩
    (ThemeOption.mk Theme.light "Light" Icon.sun) (by decide) rfl

/-- Claim C7: with the control mounted and its list open, a pointer-down
event whose target is outside the control subtree closes the list, and one
whose target is inside leaves the state unchanged, so the list stays open. -/
theorem C7_outsideClick (inside : Bool) (ps : PickerState)
    (hopen : ps.isOpen = true) :
    (inside = false → (handleClickOutside true inside ps).isOpen = false) ∧
    (inside = true → handleClickOutside true inside ps = ps) := by
  cases inside <;> simp [handleClickOutside]

/-- Witness for claim C7 at a concrete open picker state. -/
theorem C7_outsideClick_witness :
    (handleClickOutside true false
        ⟨⟨Theme.system, Resolved.light, Storage.empty⟩, true⟩).isOpen = false ∧
    handleClickOutside true true
        ⟨⟨Theme.system, Resolved.light, Storage.empty⟩, true⟩
      = ⟨⟨Theme.system, Resolved.light, Storage.empty⟩, true⟩ :=
  ⟨(C7_outsideClick false ⟨⟨Theme.system, Resolved.light, Storage.empty⟩, true⟩ rfl).1 rfl,
   (C7_outsideClick true ⟨⟨Theme.system, Resolved.light, Storage.empty⟩, true⟩ rfl).2 rfl⟩

/-- Claim C8: calling useTheme with an undefined context throws the fixed
error message, and calling it inside the provider scope returns the context
value without throwing. -/
theorem C8_useThemeGuard (st : StoreState) :
    useTheme none
      = Except.error "useTheme must be used within a ThemeProvider" ∧
    useTheme (some (contextValue st)) = Except.ok (contextValue st) :=
  ⟨rfl, rfl⟩

/-- Counterexample to claim C9 as stated: with theme system and the OS in
dark mode the resolved theme is dark, yet the part_001 picker button renders
the monitor icon of the raw preference, not the icon of the resolved
theme. -/
theorem C9_icon_counterexample :
    updateResolvedTheme Theme.system true = Resolved.dark ∧
    getIcon Theme.system ≠ specResolvedIcon (updateResolvedTheme Theme.system true) := by
  decide

/-- Claim C9 amended: the ThemeToggle.tsx picker button always renders the
icon of the resolved theme and never the monitor icon, while the part_001
variant renders the icon of the raw preference, agreeing with the resolved
icon exactly when the theme is not system. -/
theorem C9_iconAmended (t : Theme) (os : Bool) :
    currentIcon (updateResolvedTheme t os)
      = specResolvedIcon (updateResolvedTheme t os) ∧
    currentIcon (updateResolvedTheme t os) ≠ Icon.monitor ∧
    (getIcon t = specResolvedIcon (updateResolvedTheme t os) ↔ t ≠ Theme.system) := by
  cases t <;> cases os <;> decide

/-- Claim C10: the provider initial state has theme system and resolved
theme light regardless of the persisted storage contents; a persisted dark
preference takes effect on the theme only at the restore step, which still
leaves the resolved theme at its transient light value. -/
theorem C10_transientInitialState (storage0 : Storage) :
    (initialStore storage0).theme = Theme.system ∧
    (initialStore storage0).resolved = Resolved.light ∧
    (restoreFromStorage
        (initialStore (Storage.setItem Storage.empty "theme" "dark"))).theme
      = Theme.dark ∧
    (restoreFromStorage
        (initialStore (Storage.setItem Storage.empty "theme" "dark"))).resolved
      = Resolved.light := by
  refine ⟨rfl, rfl, ?_, rfl⟩
  decide
